import Mathlib

/-!
# Verification of the ee-ai-gateway request-admission pipeline

Shallow embedding of the gateway's core logic in Lean 4:

* `src/app/routing/router.py` — `_mask_key`, `ModelRouter.check_access`,
  `ModelRouter.route_request` (usage normalization, outbound credential header);
* `src/app/api/v1/endpoints.py` — `_mask_key`, the `chat_completions`
  pipeline order and effective-API-key resolution;
* `src/app/middleware/rate_limiter.py` — `check_rate_limit`,
  `get_rate_limit_status` over a model of the Redis counter store;
* `src/app/auth/jwt_handler.py` — `_fetch_jwks` caching and
  `validate_token` error wrapping.

Python strings are modelled as Lean `String` via their character lists;
Python `or` over optional strings uses Python truthiness (a string is
truthy iff non-empty); Redis is modelled as an explicit association-list
store threaded through the functions; exceptions are modelled by explicit
result types.
-/

namespace Gateway

/-! ## `_mask_key` (router.py lines 6–22 and endpoints.py lines 20–32)

Python: `"*" * (len(k) - visible) + k[-visible:]` with
`visible = 2 if len(k) <= 6 else 4`.  `"*" * n` is empty for `n ≤ 0`,
which Lean's truncated `Nat` subtraction reproduces, and `k[-visible:]`
is the suffix of length `min visible (len k)`, i.e. `drop (len - visible)`
with the same truncated subtraction. -/

/-- Embedding of `_mask_key` from `src/app/routing/router.py`:
`if len(k) <= 6: visible = 2 else visible = 4`. -/
def mask_key_router (key : String) : String :=
  if key.data.length = 0 then ""
  else
    let n := key.data.length
    let visible := if n ≤ 6 then 2 else 4
    String.mk (List.replicate (n - visible) '*' ++ key.data.drop (n - visible))

/-- Embedding of `_mask_key` from `src/app/api/v1/endpoints.py`:
`visible = 4 if len(k) > 6 else 2`. -/
def mask_key_endpoints (key : String) : String :=
  if key.data.length = 0 then ""
  else
    let n := key.data.length
    let visible := if 6 < n then 4 else 2
    String.mk (List.replicate (n - visible) '*' ++ key.data.drop (n - visible))

/-! ## Access control (`ModelRouter.check_access`, router.py lines 47–74) -/

/-- The per-model access-control rule as the YAML dict the code reads:
an association list from field name (`"roles"`, `"groups"`) to a list of
strings.  `access_control.get(model_name, {})` yields an empty dict when
the model has no rule, which is falsy in Python. -/
def AccessRule := List (String × List String)

instance : DecidableEq AccessRule :=
  inferInstanceAs (DecidableEq (List (String × List String)))

instance : Repr AccessRule :=
  inferInstanceAs (Repr (List (String × List String)))

/-- `dict.get(field, [])` on an access rule. -/
def AccessRule.getD (rule : AccessRule) (field : String) : List String :=
  match List.lookup field rule with
  | some v => v
  | none => []

/-- The part of `AuthContext` (src/app/auth/models.py) that `check_access`
reads: role, group and explicitly-granted-model string lists. -/
structure AuthContext where
  user_id : String
  roles : List String
  groups : List String
  models : List String
  deriving Repr, DecidableEq

/-- The access-control table of the model configuration
(`ModelConfig.get_access_control`, config.py lines 90–93): model name to
rule; `get` returns the empty dict when the model is absent. -/
def AccessTable := List (String × AccessRule)

instance : DecidableEq AccessTable :=
  inferInstanceAs (DecidableEq (List (String × AccessRule)))

instance : Repr AccessTable :=
  inferInstanceAs (Repr (List (String × AccessRule)))

/-- `ModelConfig.get_access_control(model_name)` (config.py lines 90–93). -/
def get_access_control (tbl : AccessTable) (modelName : String) : AccessRule :=
  match List.lookup modelName tbl with
  | some r => r
  | none => []

/-- Embedding of `ModelRouter.check_access` (router.py lines 47–74). -/
def check_access (tbl : AccessTable) (ctx : AuthContext) (modelName : String) : Bool :=
  let access_control := get_access_control tbl modelName
  -- `if not access_control: return True` — empty dict is falsy
  if access_control.isEmpty then true
  -- `if getattr(auth_context, "models", None) and model_name in auth_context.models`
  else if !ctx.models.isEmpty && ctx.models.contains modelName then true
  else
    let user_roles := ctx.roles.map String.toLower
    let user_groups := ctx.groups.map String.toLower
    let required_roles := (access_control.getD "roles").map String.toLower
    if !required_roles.isEmpty && !required_roles.any (fun r => user_roles.contains r) then
      false
    else
      let required_groups := (access_control.getD "groups").map String.toLower
      if !required_groups.isEmpty && !required_groups.any (fun g => user_groups.contains g) then
        false
      else
        true

/-- The spec's wording of the access policy (spec §4.2), written
independently of the code: allow when no rule; allow when the model is in
the granted list; else require, case-insensitively, at least one required
role when roles are specified and at least one required group when groups
are specified. -/
def checkAccessSpec (tbl : AccessTable) (ctx : AuthContext) (modelName : String) : Bool :=
  let rule := get_access_control tbl modelName
  if rule.isEmpty then true
  else if ctx.models.contains modelName then true
  else
    let reqRoles := (rule.getD "roles").map String.toLower
    let reqGroups := (rule.getD "groups").map String.toLower
    let roleOk := reqRoles.isEmpty
      || reqRoles.any (fun r => (ctx.roles.map String.toLower).contains r)
    let groupOk := reqGroups.isEmpty
      || reqGroups.any (fun g => (ctx.groups.map String.toLower).contains g)
    roleOk && groupOk

/-! ## Rate limiter (`src/app/middleware/rate_limiter.py`)

The Redis store is modelled as an association list from key to counter.
A counter holds an integer count and an optional remaining time-to-live
in seconds (`none` models a key without expiry, which Redis `TTL`
reports as `-1`; an absent key is reported as `-2`). -/

/-- A stored quota counter: `INCR`-maintained count plus remaining TTL. -/
structure Counter where
  count : Nat
  ttl : Option Nat
  deriving Repr, DecidableEq

/-- The external counter store (Redis), as a key-to-counter map. -/
structure Store where
  entries : List (String × Counter)
  deriving Repr, DecidableEq

/-- Redis `GET key` (as the parsed integer counter). -/
def Store.get (s : Store) (k : String) : Option Counter := List.lookup k s.entries

/-- `int(current) if current else 0` (rate_limiter.py lines 45–46, 83–84). -/
def Store.count (s : Store) (k : String) : Nat :=
  match s.get k with
  | some c => c.count
  | none => 0

/-- Redis `TTL key`: `-2` when the key is absent, `-1` when it has no
expiry, else the remaining TTL. -/
def Store.ttlCmd (s : Store) (k : String) : Int :=
  match s.get k with
  | none => -2
  | some c =>
    match c.ttl with
    | none => -1
    | some t => (t : Int)

/-- List-level body of the pipelined `INCR key; EXPIRE key window` pair
(rate_limiter.py lines 62–65): increments (creating at 1) and sets the
TTL to `window` — on every call, not only on creation. -/
def incrExpireList (l : List (String × Counter)) (k : String) (window : Nat) :
    List (String × Counter) :=
  match l with
  | [] => [(k, ⟨1, some window⟩)]
  | (k', c) :: rest =>
    if k' = k then (k, ⟨c.count + 1, some window⟩) :: rest
    else (k', c) :: incrExpireList rest k window

/-- The pipelined `INCR key; EXPIRE key window` pair on a store. -/
def Store.incrExpire (s : Store) (k : String) (window : Nat) : Store :=
  ⟨incrExpireList s.entries k window⟩

/-- `key = f"ratelimit:{model_name}:{user_id}"` (rate_limiter.py line 41). -/
def rateLimitKey (modelName userId : String) : String :=
  "ratelimit:" ++ modelName ++ ":" ++ userId

/-- Outcome of `check_rate_limit`: normal return, or the HTTP 429
`HTTPException` carrying `Retry-After` (the TTL) and `X-RateLimit-Reset`
(`int(time.time()) + ttl`). -/
inductive CheckResult where
  | allowed
  | quotaExceeded (retryAfter : Int) (resetAt : Int)
  deriving Repr, DecidableEq

/-- Embedding of `RateLimiter.check_rate_limit` (rate_limiter.py lines
24–73).  `redisUp = false` models any store exception, which the
`except Exception` handler turns into a plain `return True`. -/
def check_rate_limit (redisUp : Bool) (now : Int) (store : Store)
    (ctx : AuthContext) (modelName : String) (limit : Int) (window : Nat) :
    CheckResult × Store :=
  let key := rateLimitKey modelName ctx.user_id
  if !redisUp then (.allowed, store)
  else
    let current_count : Int := (store.count key : Int)
    if limit ≤ current_count then
      let ttl := store.ttlCmd key
      (.quotaExceeded ttl (now + ttl), store)
    else
      (.allowed, store.incrExpire key window)

/-- The dict returned by `get_rate_limit_status`. -/
structure RateStatus where
  limit : Int
  remaining : Int
  reset : Int
  used : Int
  deriving Repr, DecidableEq

/-- Embedding of `RateLimiter.get_rate_limit_status` (rate_limiter.py
lines 75–99).  `redisUp = false` models a store failure, handled by the
`except Exception` fallback dict. -/
def get_rate_limit_status (redisUp : Bool) (now : Int) (store : Store)
    (ctx : AuthContext) (modelName : String) (limit : Int) : RateStatus :=
  let key := rateLimitKey modelName ctx.user_id
  if !redisUp then ⟨limit, limit, now + 60, 0⟩
  else
    let current_count : Int := (store.count key : Int)
    let ttl := store.ttlCmd key
    ⟨limit, max 0 (limit - current_count), now + max 0 ttl, current_count⟩

/-! ## Usage normalization (`route_request`, router.py lines 183–204)

The upstream JSON `usage` object is modelled field-by-field: a sub-field
is absent, JSON `null`, or an integer.  (Non-numeric junk values take the
`except` fallback at lines 196–202, producing `{0,0,0}`; they are outside
this model, which covers the numeric JSON the claim quantifies over.)
`response_data.get("usage") or {}` maps an absent or `null` usage object
to the empty dict, i.e. all sub-fields absent. -/

/-- A JSON value read from a `usage` sub-field. -/
inductive JsonVal where
  | absent
  | null
  | num (i : Int)
  deriving Repr, DecidableEq

/-- The upstream `usage` JSON object. -/
structure UsageJson where
  prompt_tokens : JsonVal
  completion_tokens : JsonVal
  total_tokens : JsonVal
  deriving Repr, DecidableEq

/-- The normalized integer usage triple in `ChatCompletionResponse`. -/
structure Usage where
  prompt_tokens : Int
  completion_tokens : Int
  total_tokens : Int
  deriving Repr, DecidableEq

/-- `int(usage.get(field, 0) or 0)`: absent and `null` (and the falsy
integer 0) all become 0. -/
def JsonVal.orZero : JsonVal → Int
  | .absent => 0
  | .null => 0
  | .num i => i

/-- `int(usage.get("total_tokens", s) or s)`: absent takes the `get`
default `s`; `null` and the falsy 0 fall through `or` to `s`; any other
integer is kept as-is. -/
def JsonVal.orDefault (v : JsonVal) (s : Int) : Int :=
  match v with
  | .absent => s
  | .null => s
  | .num i => if i = 0 then s else i

/-- Embedding of the usage-normalization block of
`ModelRouter.route_request` (router.py lines 183–204): `none` models an
upstream JSON without a `usage` field (or with `usage: null`). -/
def normalize_usage (usage : Option UsageJson) : Usage :=
  let u := usage.getD ⟨.absent, .absent, .absent⟩
  let prompt_tokens := u.prompt_tokens.orZero
  let completion_tokens := u.completion_tokens.orZero
  let total_tokens := u.total_tokens.orDefault (prompt_tokens + completion_tokens)
  ⟨prompt_tokens, completion_tokens, total_tokens⟩

/-! ## JWT validation (`src/app/auth/jwt_handler.py`)

The cryptographic checks are abstracted to booleans on the token; the
remote JWKS fetch's transport outcome is an explicit `Except` argument. -/

/-- A JWKS entry: key id plus optional X.509 certificate chain head
(the derived PEM key material is modelled by the certificate string). -/
structure JwksKey where
  kid : String
  x5c : Option String
  deriving Repr, DecidableEq

/-- A fetched signing-key set. -/
structure Jwks where
  keys : List JwksKey
  deriving Repr, DecidableEq

/-- The process-wide signing-key cache (`_jwks_cache` and
`_jwks_cache_time`, jwt_handler.py lines 25–27); the TTL is 3600 s. -/
structure JwksCacheState where
  cache : Option Jwks
  cacheTime : Int
  deriving Repr, DecidableEq

/-- Embedding of `JWTHandler._fetch_jwks` (jwt_handler.py lines 38–51):
serve the cached set when it was fetched within the TTL window;
otherwise perform the remote fetch.  `fetchResult.error` models an
`httpx` transport failure or a non-2xx `raise_for_status`, which this
function does not catch. -/
def fetch_jwks (st : JwksCacheState) (now : Int)
    (fetchResult : Except Unit Jwks) : Except Unit (Jwks × JwksCacheState) :=
  match st.cache with
  | some c =>
    if now - st.cacheTime < 3600 then .ok (c, st)
    else
      match fetchResult with
      | .ok j => .ok (j, ⟨some j, now⟩)
      | .error e => .error e
  | none =>
    match fetchResult with
    | .ok j => .ok (j, ⟨some j, now⟩)
    | .error e => .error e

/-- The aspects of a bearer token that `validate_token` inspects:
`sigOkHS` — signature valid under the pre-shared process secret;
`sigOkRS` — signature valid under the JWKS key located for this token;
`expired` — the `exp` claim is in the past; `claimsOk` — audience and
issuer match the configured values; `payloadOk` — the decoded payload
parses into `TokenClaims` (required claims present). -/
structure TokenM where
  present : Bool
  headerOk : Bool
  alg : String
  kid : Option String
  sigOkHS : Bool
  sigOkRS : Bool
  expired : Bool
  claimsOk : Bool
  payloadOk : Bool
  deriving Repr, DecidableEq

/-- `JWTHandler._is_local_token` (lines 29–36): the header parses and
declares HS256; any parse failure is swallowed to `False`. -/
def is_local_token (tok : TokenM) : Bool :=
  tok.headerOk && tok.alg == "HS256"

/-- `JWTHandler.get_signing_key` (lines 53–76): the first JWKS key whose
kid matches the token's and which carries an `x5c` chain; a
header-parse failure is caught and becomes `None`. -/
def get_signing_key (tok : TokenM) (jwks : Jwks) : Option String :=
  if !tok.headerOk then none
  else
    match tok.kid with
    | none => none
    | some kid =>
      (jwks.keys.find? (fun k => k.kid == kid && k.x5c.isSome)).bind
        (fun k => k.x5c)

/-- The error `jose.jwt.decode` raises, in the order jose checks:
signature first, then expiry, then the remaining registered claims. -/
inductive JoseError where
  | jwtError
  | expiredSignature
  | claimsError
  deriving Repr, DecidableEq

/-- `jose.jwt.decode`: `checkClaims` is false on the HS256 path (no
audience/issuer verification, jwt_handler.py lines 89–97) and true on
the RS256 path (lines 113–125). -/
def jose_decode (sigOk expired checkClaims claimsOk : Bool) : Option JoseError :=
  if !sigOk then some .jwtError
  else if expired then some .expiredSignature
  else if checkClaims && !claimsOk then some .claimsError
  else none

/-- Outcome of `validate_token`, as the HTTP status surfaced to the
caller. -/
inductive ValidationResult where
  | ok
  | unauthorized (detail : String)
  | internalError (detail : String)
  deriving Repr, DecidableEq

/-- Embedding of `JWTHandler.validate_token` (jwt_handler.py lines
78–150).  The `except` ladder maps `ExpiredSignatureError`,
`JWTClaimsError` and `JWTError` to HTTP 401 and *everything else* to
HTTP 500 — including the `HTTPException(401, "signing key not found")`
raised at lines 105–110 (an `HTTPException` is not a `JWTError`, so the
final `except Exception` catches and rewraps it), the propagated JWKS
fetch failure, and a pydantic failure building `TokenClaims`. -/
def validate_token (tok : TokenM) (st : JwksCacheState) (now : Int)
    (fetchResult : Except Unit Jwks) : ValidationResult :=
  if !tok.present then .unauthorized "Missing token"
  else if is_local_token tok then
    match jose_decode tok.sigOkHS tok.expired false true with
    | some .jwtError => .unauthorized "Token validation error"
    | some .expiredSignature => .unauthorized "Invalid token"
    | some .claimsError => .unauthorized "Invalid token claims"
    | none =>
      if tok.payloadOk then .ok
      else .internalError "Internal server error during token validation"
  else
    match fetch_jwks st now fetchResult with
    | .error _ => .internalError "Internal server error during token validation"
    | .ok (jwks, _) =>
      match get_signing_key tok jwks with
      | none => .internalError "Internal server error during token validation"
      | some _ =>
        match jose_decode tok.sigOkRS tok.expired true tok.claimsOk with
        | some .jwtError => .unauthorized "Token validation error"
        | some .expiredSignature => .unauthorized "Invalid token"
        | some .claimsError => .unauthorized "Invalid token claims"
        | none =>
          if tok.payloadOk then .ok
          else .internalError "Internal server error during token validation"

/-! ## Model configuration and the `chat_completions` pipeline
(`src/app/config.py`, `src/app/api/v1/endpoints.py`,
`src/app/routing/router.py`) -/

/-- A `ModelEntry` of the config's `models` table, restricted to the
fields the pipeline reads.  `api_key` is the statically configured
upstream credential; the `${VAR}` placeholder indirection of
endpoints.py lines 109–132 is modelled as already resolved, so the
endpoint code and the router read the same value. -/
structure ModelEntry where
  endpoint : Option String
  api_key : Option String
  auth_header : Option String
  auth_prefix : Option String
  rate_limit : Option Int
  deriving Repr, DecidableEq

/-- The `rate_limits` section of the config. -/
structure RateLimits where
  by_group : List (String × Int)
  dflt : Option Int
  deriving Repr, DecidableEq

/-- The declarative gateway configuration (`ModelConfig._config`). -/
structure GatewayConfig where
  models : List (String × ModelEntry)
  access_control : AccessTable
  rate_limits : RateLimits
  deriving Repr, DecidableEq

/-- `ModelConfig.get_model_config` (config.py lines 68–70): `none`
models the empty (falsy) dict returned for an unknown model. -/
def get_model_config (cfg : GatewayConfig) (modelName : String) :
    Option ModelEntry :=
  List.lookup modelName cfg.models

/-- `ModelConfig.get_rate_limits` (config.py lines 76–88): the group
override first, then the model's own `rate_limit`, then
`rate_limits.get("default", 100)`. -/
def get_rate_limits (cfg : GatewayConfig) (modelName : String)
    (groupId : Option String) : Int :=
  let fallback :=
    match (get_model_config cfg modelName).bind (fun e => e.rate_limit) with
    | some v => v
    | none => cfg.rate_limits.dflt.getD 100
  match groupId with
  | some g =>
    match List.lookup g cfg.rate_limits.by_group with
    | some v => v
    | none => fallback
  | none => fallback

/-- Python truthiness of an optional string: `None` and `""` are falsy. -/
def truthy (o : Option String) : Option String :=
  match o with
  | some s => if s.isEmpty then none else some s
  | none => none

/-- Python `a or b` on optional strings. -/
def pyOr (a b : Option String) : Option String :=
  match truthy a with
  | some s => some s
  | none => b

/-- Outcome of `ModelRouter.route_request` up to the upstream call,
recording the outbound credential header it injects (`none` when no
upstream credential is configured). -/
inductive RouteResult where
  | notFound
  | forbidden
  | misconfigured
  | forwarded (credentialHeader : Option (String × String))
  deriving Repr, DecidableEq

/-- The prefix/key join of router.py lines 122–130: one space between
prefix and key unless the prefix already ends in a space; no prefix
means the bare key. -/
def build_auth_header_value (authPrefix apiKey : String) : String :=
  if !authPrefix.isEmpty then
    if authPrefix.endsWith " " then authPrefix ++ apiKey
    else authPrefix ++ " " ++ apiKey
  else apiKey

/-- Embedding of `ModelRouter.route_request` (router.py lines 76–204) up
to the upstream POST: model lookup (404), defensive access re-check
(403), endpoint check (500), and construction of the outbound credential
header from `api_key`, `auth_header` (default `"Authorization"`) and
`auth_prefix` (`or ""`).  The upstream exchange and the normalization of
its response are modelled separately (`normalize_usage`). -/
def route_request (cfg : GatewayConfig) (ctx : AuthContext)
    (modelName : String) : RouteResult :=
  match get_model_config cfg modelName with
  | none => .notFound
  | some mc =>
    if !check_access cfg.access_control ctx modelName then .forbidden
    else
      match truthy mc.endpoint with
      | none => .misconfigured
      | some _ =>
        match truthy mc.api_key with
        | none => .forwarded none
        | some key =>
          let authHeader := mc.auth_header.getD "Authorization"
          let authPrefix := mc.auth_prefix.getD ""
          .forwarded (some (authHeader, build_auth_header_value authPrefix key))

/-- The credential resolution of `chat_completions` (endpoints.py lines
104–229): the caller-supplied per-request header first, then the
gateway's process-level `OPENAI_API_KEY`, then the model's configured
key, chained by Python `or`. -/
def resolve_effective_api_key (headerKey envKey cfgKey : Option String) :
    Option String :=
  pyOr headerKey (pyOr envKey cfgKey)

/-- `models[model]["api_key"] = effective_api_key` on one entry. -/
def set_api_key (e : ModelEntry) (key : String) : ModelEntry :=
  { e with api_key := some key }

/-- The in-place config mutation of endpoints.py lines 253–261: create
the model entry if missing, then overwrite its `api_key` with the
resolved effective key. -/
def inject_api_key (cfg : GatewayConfig) (modelName : String) (key : String) :
    GatewayConfig :=
  match List.lookup modelName cfg.models with
  | some _ =>
    { cfg with
        models := cfg.models.map (fun p =>
          if p.1 = modelName then (p.1, set_api_key p.2 key) else p) }
  | none =>
    { cfg with
        models := cfg.models ++ [(modelName, ⟨none, some key, none, none, none⟩)] }

/-- Result of the `chat_completions` pipeline: a success carrying the
outbound credential header, or the HTTP error status raised. -/
inductive PipelineResult where
  | ok (credentialHeader : Option (String × String))
  | httpError (statusCode : Nat)
  deriving Repr, DecidableEq

/-- Embedding of the `chat_completions` endpoint pipeline (endpoints.py
lines 64–294) after authentication: access check (403), rate-limit
resolution (`groups[0]` as group id) and quota check with the default
60-second window (429), effective-credential resolution and injection
into the shared config, then `route_request` (404/403/500/forward).
`headerKey` is the caller-supplied per-request credential header,
`envKey` the gateway's process-level `OPENAI_API_KEY`. -/
def chat_completions (cfg : GatewayConfig) (redisUp : Bool) (now : Int)
    (store : Store) (ctx : AuthContext) (modelName : String)
    (headerKey envKey : Option String) : PipelineResult × Store :=
  if !check_access cfg.access_control ctx modelName then
    (.httpError 403, store)
  else
    let rateLimit := get_rate_limits cfg modelName ctx.groups.head?
    match check_rate_limit redisUp now store ctx modelName rateLimit 60 with
    | (.quotaExceeded _ _, store') => (.httpError 429, store')
    | (.allowed, store') =>
      let cfgKey := (get_model_config cfg modelName).bind (fun e => e.api_key)
      let cfg2 :=
        match truthy (resolve_effective_api_key headerKey envKey cfgKey) with
        | some k => inject_api_key cfg modelName k
        | none => cfg
      match route_request cfg2 ctx modelName with
      | .notFound => (.httpError 404, store')
      | .forbidden => (.httpError 403, store')
      | .misconfigured => (.httpError 500, store')
      | .forwarded h => (.ok h, store')

end Gateway

/-! ## Theorems -/

namespace Gateway

/-- **C10.** The secret-masking helper leaves secrets of length 1 or 2
completely unmasked: in both copies (`router.py` and `endpoints.py`),
`_mask_key` returns the secret unchanged because the star count
`len - visible` truncates to zero while the visible slice is the whole
string. -/
theorem mask_key_short_secret_unchanged (s : String)
    (h : s.data.length = 1 ∨ s.data.length = 2) :
    mask_key_router s = s ∧ mask_key_endpoints s = s := by
  obtain ⟨l⟩ := s
  obtain h1 | h2 := h <;>
    constructor <;>
      simp_all [mask_key_router, mask_key_endpoints]

/-- Witness for C10 at the concrete length-2 secret `"ab"` and the
length-1 secret `"a"`. -/
theorem mask_key_short_secret_unchanged_witness :
    (("ab" : String).data.length = 1 ∨ ("ab" : String).data.length = 2) ∧
      mask_key_router "ab" = "ab" ∧ mask_key_endpoints "ab" = "ab" :=
  ⟨by decide, mask_key_short_secret_unchanged "ab" (by decide)⟩

/-- **C7.** `check_access` implements exactly the spec's policy: allow
when the model has no access rule, allow when the model name is in the
context's granted-model list, otherwise (comparing roles and groups
case-insensitively) deny unless the user holds at least one required role
(when roles are specified) and at least one required group (when groups
are specified); in particular a model with no rule is allowed for every
context. -/
theorem check_access_correct (tbl : AccessTable) (ctx : AuthContext) (m : String) :
    check_access tbl ctx m = checkAccessSpec tbl ctx m ∧
      (get_access_control tbl m = [] → check_access tbl ctx m = true) := by
  constructor
  · simp only [check_access, checkAccessSpec]
    by_cases hempty : (get_access_control tbl m).isEmpty = true
    · rw [if_pos hempty, if_pos hempty]
    · rw [if_neg hempty, if_neg hempty]
      by_cases hmem : ctx.models.contains m = true
      · have hne : ctx.models.isEmpty = false := by
          cases hml : ctx.models with
          | nil => rw [hml] at hmem; simp at hmem
          | cons a t => simp
        rw [if_pos (by rw [hne, hmem]; rfl), if_pos hmem]
      · have hmem' : ctx.models.contains m = false := by
          cases hc : ctx.models.contains m
          · rfl
          · exact absurd hc hmem
        have hcondL : ¬((!ctx.models.isEmpty && ctx.models.contains m) = true) := by
          rw [hmem']; simp
        rw [if_neg hcondL, if_neg hmem]
        generalize (((get_access_control tbl m).getD "roles").map String.toLower).isEmpty = a
        generalize (((get_access_control tbl m).getD "roles").map String.toLower).any
          (fun r => (ctx.roles.map String.toLower).contains r) = b
        generalize (((get_access_control tbl m).getD "groups").map String.toLower).isEmpty = c
        generalize (((get_access_control tbl m).getD "groups").map String.toLower).any
          (fun g => (ctx.groups.map String.toLower).contains g) = d
        cases a <;> cases b <;> cases c <;> cases d <;> rfl
  · intro hnil
    simp only [check_access]
    rw [if_pos (by rw [hnil]; rfl)]

/-- Helper: one step of the pipelined `INCR; EXPIRE` at the list level. -/
theorem lookup_incrExpireList (l : List (String × Counter)) (k : String) (w : Nat) :
    List.lookup k (incrExpireList l k w) =
      some ⟨(match List.lookup k l with | some c => c.count | none => 0) + 1, some w⟩ := by
  induction l with
  | nil => simp [incrExpireList, List.lookup]
  | cons hd tl ih =>
    obtain ⟨k', c⟩ := hd
    by_cases hk : k' = k
    · subst hk
      simp [incrExpireList, List.lookup]
    · have hbeq : (k == k') = false := by
        rw [beq_eq_false_iff_ne]
        exact Ne.symm hk
      simp [incrExpireList, hk, List.lookup, hbeq, ih]

/-- Helper: the pipelined `INCR; EXPIRE` creates the counter at 1 or
bumps it by one, and in both cases leaves its TTL equal to the window. -/
theorem Store.get_incrExpire (s : Store) (k : String) (w : Nat) :
    (s.incrExpire k w).get k = some ⟨s.count k + 1, some w⟩ := by
  simp only [Store.incrExpire, Store.get, Store.count]
  exact lookup_incrExpireList s.entries k w

/-- **C2 counterexample.** The claim says the counter's expiry is set to
the window *only if the counter was newly created*.  On a store holding
an existing counter with count 1 and 5 seconds of TTL left, a passing
check (limit 10, window 60) rewrites the TTL to 60: the expiry is reset
on an increment that did not create the counter. -/
theorem check_rate_limit_resets_ttl_on_existing_counter :
    check_rate_limit true 0 (Store.mk [("ratelimit:gpt-4:u1", ⟨1, some 5⟩)])
        ⟨"u1", [], [], []⟩ "gpt-4" 10 60 =
      (.allowed, Store.mk [("ratelimit:gpt-4:u1", ⟨2, some 60⟩)]) ∧
    some (60 : Nat) ≠ some (5 : Nat) := by
  constructor
  · rfl
  · decide

/-- **C2 (amended).** `check_rate_limit` fails with `QuotaExceeded`
carrying `retryAfter` (the counter's TTL) when the stored counter is at
or above the limit, leaving the store unchanged; otherwise it atomically
increments the counter and (re)sets its expiry to the window on *every*
increment — not only when the counter is newly created — and returns
normally. -/
theorem check_rate_limit_correct (now : Int) (store : Store)
    (ctx : AuthContext) (modelName : String) (limit : Int) (window : Nat) :
    (limit ≤ (store.count (rateLimitKey modelName ctx.user_id) : Int) →
      check_rate_limit true now store ctx modelName limit window =
        (.quotaExceeded (store.ttlCmd (rateLimitKey modelName ctx.user_id))
          (now + store.ttlCmd (rateLimitKey modelName ctx.user_id)), store)) ∧
    ((store.count (rateLimitKey modelName ctx.user_id) : Int) < limit →
      check_rate_limit true now store ctx modelName limit window =
        (.allowed, store.incrExpire (rateLimitKey modelName ctx.user_id) window) ∧
      (store.incrExpire (rateLimitKey modelName ctx.user_id) window).get
          (rateLimitKey modelName ctx.user_id) =
        some ⟨store.count (rateLimitKey modelName ctx.user_id) + 1, some window⟩) := by
  constructor
  · intro hle
    simp only [check_rate_limit]
    rw [if_neg (by simp), if_pos hle]
  · intro hlt
    refine ⟨?_, Store.get_incrExpire store (rateLimitKey modelName ctx.user_id) window⟩
    simp only [check_rate_limit]
    rw [if_neg (by simp), if_neg (by omega)]

/-- Witness for C2 (amended): empty store, limit 5, window 60 — the
check passes, creates the counter at 1 and gives it TTL 60. -/
theorem check_rate_limit_correct_witness :
    (((Store.mk []).count (rateLimitKey "gpt-4" "u1") : Int) < 5 ∧
      check_rate_limit true 0 (Store.mk []) ⟨"u1", [], [], []⟩ "gpt-4" 5 60 =
        (.allowed, (Store.mk []).incrExpire (rateLimitKey "gpt-4" "u1") 60) ∧
      ((Store.mk []).incrExpire (rateLimitKey "gpt-4" "u1") 60).get
          (rateLimitKey "gpt-4" "u1") =
        some ⟨(Store.mk []).count (rateLimitKey "gpt-4" "u1") + 1, some 60⟩) :=
  ⟨by decide,
    (check_rate_limit_correct 0 (Store.mk []) ⟨"u1", [], [], []⟩ "gpt-4" 5 60).2
      (by decide)⟩

/-- **C5 counterexample.** The claim says the status query reports
`resetAt = now + window` when no counter exists.  On an empty store with
`now = 1000` the code reports `reset = 1000` (Redis `TTL` returns `-2`
for a missing key and the code clamps it to 0); `get_rate_limit_status`
does not even receive a window, so for the spec's 60-second window the
claimed value `now + 60 = 1060` differs. -/
theorem rate_limit_status_missing_counter_reset_is_now :
    get_rate_limit_status true 1000 (Store.mk []) ⟨"u1", [], [], []⟩ "gpt-4" 5 =
      ⟨5, 5, 1000, 0⟩ ∧
    (1000 : Int) ≠ 1000 + 60 := by
  constructor
  · rfl
  · decide

/-- **C5 (amended).** The status query returns `used` equal to the
current counter value (0 when absent), `remaining = max 0 (limit - used)`,
and `resetAt = now + max 0 ttl` of the existing counter; when no counter
exists the TTL command reports −2, so `resetAt = now` (not
`now + window`). -/
theorem rate_limit_status_correct (now : Int) (store : Store)
    (ctx : AuthContext) (modelName : String) (limit : Int) :
    (get_rate_limit_status true now store ctx modelName limit).used =
        (store.count (rateLimitKey modelName ctx.user_id) : Int) ∧
    (get_rate_limit_status true now store ctx modelName limit).remaining =
        max 0 (limit - (store.count (rateLimitKey modelName ctx.user_id) : Int)) ∧
    (get_rate_limit_status true now store ctx modelName limit).reset =
        now + max 0 (store.ttlCmd (rateLimitKey modelName ctx.user_id)) ∧
    (store.get (rateLimitKey modelName ctx.user_id) = none →
      (get_rate_limit_status true now store ctx modelName limit).reset = now) := by
  refine ⟨rfl, rfl, rfl, ?_⟩
  intro habsent
  simp only [get_rate_limit_status, Store.ttlCmd, habsent]
  norm_num

/-- Witness for C5 (amended) on an empty store. -/
theorem rate_limit_status_correct_witness :
    (get_rate_limit_status true 1000 (Store.mk []) ⟨"u1", [], [], []⟩ "gpt-4" 5).used =
        ((Store.mk []).count (rateLimitKey "gpt-4" "u1") : Int) ∧
    ((Store.mk []).get (rateLimitKey "gpt-4" "u1") = none) ∧
    (get_rate_limit_status true 1000 (Store.mk []) ⟨"u1", [], [], []⟩ "gpt-4" 5).reset
      = 1000 :=
  ⟨(rate_limit_status_correct 1000 (Store.mk []) ⟨"u1", [], [], []⟩ "gpt-4" 5).1, rfl,
    (rate_limit_status_correct 1000 (Store.mk []) ⟨"u1", [], [], []⟩ "gpt-4" 5).2.2.2 rfl⟩

/-- **C6.** When the external store is unreachable, the limiter fails
open: `check_rate_limit` returns normally (allowed) without touching the
store, and `get_rate_limit_status` reports full quota available —
`used = 0` and `remaining = limit`; store unavailability never blocks
traffic. -/
theorem rate_limiter_fails_open (now : Int) (store : Store)
    (ctx : AuthContext) (modelName : String) (limit : Int) (window : Nat) :
    check_rate_limit false now store ctx modelName limit window =
        (.allowed, store) ∧
    (get_rate_limit_status false now store ctx modelName limit).used = 0 ∧
    (get_rate_limit_status false now store ctx modelName limit).remaining = limit := by
  exact ⟨rfl, rfl, rfl⟩

/-- Witness for C7: a table with no rule for `"gpt-4"` and a rule
requiring role `admin` for `"gpt-5"`; a context with roles `["Admin"]`
satisfies both clauses of the theorem at `"gpt-4"`. -/
theorem check_access_correct_witness :
    (check_access [("gpt-5", [("roles", ["admin"])])]
        ⟨"u1", ["Admin"], [], []⟩ "gpt-4" =
      checkAccessSpec [("gpt-5", [("roles", ["admin"])])]
        ⟨"u1", ["Admin"], [], []⟩ "gpt-4") ∧
    (get_access_control [("gpt-5", [("roles", ["admin"])])] "gpt-4" = [] →
      check_access [("gpt-5", [("roles", ["admin"])])]
        ⟨"u1", ["Admin"], [], []⟩ "gpt-4" = true) :=
  check_access_correct [("gpt-5", [("roles", ["admin"])])]
    ⟨"u1", ["Admin"], [], []⟩ "gpt-4"

/-- Helper: `check_access` allows when the model has no access rule. -/
theorem check_access_of_no_rule (tbl : AccessTable) (ctx : AuthContext)
    (m : String) (h : get_access_control tbl m = []) :
    check_access tbl ctx m = true := by
  simp only [check_access]
  rw [if_pos (by rw [h]; rfl)]

/-- Helper: a passing quota check increments the counter via the
`INCR`/`EXPIRE` pair. -/
theorem check_rate_limit_pass (now : Int) (store : Store) (ctx : AuthContext)
    (modelName : String) (limit : Int) (window : Nat)
    (h : (store.count (rateLimitKey modelName ctx.user_id) : Int) < limit) :
    check_rate_limit true now store ctx modelName limit window =
      (.allowed, store.incrExpire (rateLimitKey modelName ctx.user_id) window) := by
  simp only [check_rate_limit]
  rw [if_neg (by simp), if_neg (by omega)]

/-- Helper: the `INCR`/`EXPIRE` pair bumps the stored count by one. -/
theorem Store.count_incrExpire (s : Store) (k : String) (w : Nat) :
    (s.incrExpire k w).count k = s.count k + 1 := by
  simp [Store.count, Store.get_incrExpire]

/-- Helper: a transport failure of the JWKS fetch propagates whenever
the cache is absent or stale. -/
theorem fetch_jwks_error_of_stale (st : JwksCacheState) (now : Int)
    (h : st.cache = none ∨ 3600 ≤ now - st.cacheTime) :
    fetch_jwks st now (.error ()) = .error () := by
  obtain ⟨cache, time⟩ := st
  cases cache with
  | none => rfl
  | some c =>
    obtain habs | hstale := h
    · cases habs
    · simp only [fetch_jwks]
      rw [if_neg (by simp only at hstale; omega)]

/-- **C3 counterexample.** The claim says `usage.total_tokens` equals
`prompt_tokens + completion_tokens` in every case.  When the upstream
supplies `{prompt_tokens: 1, completion_tokens: 2, total_tokens: 999}`,
the code keeps the upstream total 999, which is not the sum 3. -/
theorem normalize_usage_keeps_upstream_total :
    normalize_usage (some ⟨.num 1, .num 2, .num 999⟩) = ⟨1, 2, 999⟩ ∧
    (999 : Int) ≠ 1 + 2 := by
  exact ⟨rfl, by decide⟩

/-- **C3 (amended).** The returned usage triple is integers with every
omitted sub-field defaulting to 0; when the upstream omits the `usage`
field entirely the triple is `{0,0,0}`; `total_tokens` is computed as
`prompt_tokens + completion_tokens` when the upstream omits
`total_tokens` (or sends `null` or the falsy 0), but an upstream nonzero
`total_tokens` is kept as-is even when it differs from the sum. -/
theorem normalize_usage_correct (p c t : JsonVal) :
    (normalize_usage none = ⟨0, 0, 0⟩) ∧
    (p = .absent → (normalize_usage (some ⟨p, c, t⟩)).prompt_tokens = 0) ∧
    (c = .absent → (normalize_usage (some ⟨p, c, t⟩)).completion_tokens = 0) ∧
    ((t = .absent ∨ t = .null ∨ t = .num 0) →
      (normalize_usage (some ⟨p, c, t⟩)).total_tokens =
        (normalize_usage (some ⟨p, c, t⟩)).prompt_tokens +
          (normalize_usage (some ⟨p, c, t⟩)).completion_tokens) ∧
    (∀ i : Int, t = .num i → i ≠ 0 →
      (normalize_usage (some ⟨p, c, t⟩)).total_tokens = i) := by
  refine ⟨rfl, ?_, ?_, ?_, ?_⟩
  · intro hp
    subst hp
    simp [normalize_usage, JsonVal.orZero]
  · intro hc
    subst hc
    simp [normalize_usage, JsonVal.orZero]
  · intro ht
    obtain h | h | h := ht <;>
    · subst h
      simp [normalize_usage, JsonVal.orDefault]
  · intro i ht hi
    subst ht
    simp [normalize_usage, JsonVal.orDefault, hi]

/-- Witness for C3 (amended): `{completion_tokens: 2}` normalizes to
`{0, 2, 2}` with the total computed as the sum, and an upstream total 7
is kept. -/
theorem normalize_usage_correct_witness :
    ((normalize_usage (some ⟨.absent, .num 2, .absent⟩)).prompt_tokens = 0 ∧
      (normalize_usage (some ⟨.absent, .num 2, .absent⟩)).total_tokens =
        (normalize_usage (some ⟨.absent, .num 2, .absent⟩)).prompt_tokens +
          (normalize_usage (some ⟨.absent, .num 2, .absent⟩)).completion_tokens) ∧
    (normalize_usage (some ⟨.num 1, .num 2, .num 7⟩)).total_tokens = 7 :=
  ⟨⟨(normalize_usage_correct .absent (.num 2) .absent).2.1 rfl,
    (normalize_usage_correct .absent (.num 2) .absent).2.2.2.1 (Or.inl rfl)⟩,
    (normalize_usage_correct (.num 1) (.num 2) (.num 7)).2.2.2.2 7 rfl (by decide)⟩

/-- Helper: `truthy` only yields non-empty strings. -/
theorem truthy_eq_some {o : Option String} {s : String}
    (h : truthy o = some s) : s.isEmpty = false := by
  cases o with
  | none => simp [truthy] at h
  | some t =>
    simp only [truthy] at h
    by_cases ht : t.isEmpty = true
    · rw [if_pos ht] at h
      cases h
    · rw [if_neg ht] at h
      injection h with h2
      subst h2
      cases hb : t.isEmpty
      · rfl
      · exact absurd hb ht

/-- Helper: `truthy` is idempotent on a non-empty string. -/
theorem truthy_of_nonempty {s : String} (h : s.isEmpty = false) :
    truthy (some s) = some s := by
  simp [truthy, h]

/-- Helper: a truthy first operand short-circuits Python `or`. -/
theorem pyOr_of_truthy_some {a b : Option String} {s : String}
    (h : truthy a = some s) : pyOr a b = some s := by
  simp [pyOr, h]

/-- Helper: a falsy first operand makes Python `or` return the second. -/
theorem pyOr_of_truthy_none {a b : Option String} (h : truthy a = none) :
    pyOr a b = b := by
  simp [pyOr, h]

/-- Helper: `a or b` is falsy exactly when both operands are. -/
theorem truthy_pyOr_eq_none {a b : Option String} :
    truthy (pyOr a b) = none ↔ truthy a = none ∧ truthy b = none := by
  cases ha : truthy a with
  | some s =>
    have hs := truthy_eq_some ha
    rw [pyOr_of_truthy_some ha, truthy_of_nonempty hs]
    simp [ha]
  | none =>
    rw [pyOr_of_truthy_none ha]
    simp [ha]

/-- **C1 counterexample.** The claim says the quota counter for a
request naming an unconfigured model is neither read nor incremented.
Running the pipeline on an empty config and empty store for model
`"gpt-x"` (no credentials supplied) does return 404, but the quota
counter for the request's key has been created at 1 with a 60 s TTL:
the rate-limit check runs before the model lookup. -/
theorem unknown_model_quota_counter_incremented :
    chat_completions ⟨[], [], ⟨[], none⟩⟩ true 0 (Store.mk [])
        ⟨"u1", [], [], []⟩ "gpt-x" none none =
      (.httpError 404, Store.mk [("ratelimit:gpt-x:u1", ⟨1, some 60⟩)]) ∧
    Store.mk [("ratelimit:gpt-x:u1", ⟨1, some 60⟩)] ≠ Store.mk [] := by
  exact ⟨by decide, by decide⟩

/-- **C1 (amended).** A chat completion request naming a model with no
configured `ModelEntry` (and no access rule, no caller-supplied and no
process-level credential) fails with `ModelNotFound` (HTTP 404), but
the QuotaLimiter *is* reached first: provided the counter is below the
limit, the request's quota counter is read and incremented (with the
60 s window) before the model lookup raises the 404. -/
theorem model_not_found_reaches_quota (cfg : GatewayConfig) (store : Store)
    (ctx : AuthContext) (modelName : String) (headerKey envKey : Option String)
    (now : Int)
    (hmodel : get_model_config cfg modelName = none)
    (hrule : get_access_control cfg.access_control modelName = [])
    (hhk : truthy headerKey = none) (henv : truthy envKey = none)
    (hquota : (store.count (rateLimitKey modelName ctx.user_id) : Int) <
      get_rate_limits cfg modelName ctx.groups.head?) :
    chat_completions cfg true now store ctx modelName headerKey envKey =
      (.httpError 404, store.incrExpire (rateLimitKey modelName ctx.user_id) 60) ∧
    (store.incrExpire (rateLimitKey modelName ctx.user_id) 60).count
        (rateLimitKey modelName ctx.user_id) =
      store.count (rateLimitKey modelName ctx.user_id) + 1 := by
  have hacc := check_access_of_no_rule cfg.access_control ctx modelName hrule
  have hpass := check_rate_limit_pass now store ctx modelName
    (get_rate_limits cfg modelName ctx.groups.head?) 60 hquota
  have hres : truthy (resolve_effective_api_key headerKey envKey none) = none := by
    unfold resolve_effective_api_key
    rw [pyOr_of_truthy_none hhk, pyOr_of_truthy_none henv]
    rfl
  refine ⟨?_, Store.count_incrExpire store (rateLimitKey modelName ctx.user_id) 60⟩
  simp [chat_completions, hacc, hpass, hres, route_request, hmodel]

/-- Witness for C1 (amended) at the counterexample's concrete input,
derived by applying the theorem. -/
theorem model_not_found_reaches_quota_witness :
    chat_completions ⟨[], [], ⟨[], none⟩⟩ true 0 (Store.mk [])
        ⟨"u1", [], [], []⟩ "gpt-x" none none =
      (.httpError 404,
        (Store.mk []).incrExpire (rateLimitKey "gpt-x" "u1") 60) ∧
    ((Store.mk []).incrExpire (rateLimitKey "gpt-x" "u1") 60).count
        (rateLimitKey "gpt-x" "u1") =
      (Store.mk []).count (rateLimitKey "gpt-x" "u1") + 1 :=
  model_not_found_reaches_quota ⟨[], [], ⟨[], none⟩⟩ (Store.mk [])
    ⟨"u1", [], [], []⟩ "gpt-x" none none 0 rfl rfl rfl rfl (by decide)

/-- **C4 counterexample.** The claim says a transport failure of the
signing-key-set fetch while a stale cached set is present is swallowed
and the stale set is served.  With a cached set fetched at time 0,
validated at time 7200 (past the 3600 s TTL), and a failing fetch, the
fetch error propagates and `validate_token` surfaces an HTTP 500 to the
caller instead of succeeding against the stale keys. -/
theorem jwks_stale_fetch_failure_surfaces :
    fetch_jwks ⟨some (Jwks.mk [JwksKey.mk "k1" (some "cert1")]), 0⟩ 7200
        (.error ()) = .error () ∧
    validate_token ⟨true, true, "RS256", some "k1", false, true, false, true, true⟩
        ⟨some (Jwks.mk [JwksKey.mk "k1" (some "cert1")]), 0⟩ 7200 (.error ()) ≠
      .ok := by
  exact ⟨rfl, by decide⟩

/-- **C4 (amended).** A key-set fetch transport failure is *not*
swallowed when the cached set is absent or stale: it propagates out of
`_fetch_jwks`, and `validate_token` surfaces it to the caller as an
HTTP 500 internal error.  The cached set is served (with no fetch
attempted) only while it is still fresh, i.e. within the 3600 s TTL. -/
theorem jwks_fetch_failure_handling (st : JwksCacheState) (now : Int)
    (tok : TokenM) :
    ((st.cache = none ∨ 3600 ≤ now - st.cacheTime) →
      fetch_jwks st now (.error ()) = .error () ∧
      (tok.present = true → is_local_token tok = false →
        validate_token tok st now (.error ()) =
          .internalError "Internal server error during token validation")) ∧
    (∀ c, st.cache = some c → now - st.cacheTime < 3600 →
      fetch_jwks st now (.error ()) = .ok (c, st)) := by
  constructor
  · intro hstale
    have hfetch := fetch_jwks_error_of_stale st now hstale
    refine ⟨hfetch, ?_⟩
    intro hp hl
    simp [validate_token, hp, hl, hfetch]
  · intro c hc hfresh
    simp [fetch_jwks, hc, hfresh]

/-- Witness for C4 (amended): the concrete stale-cache failure of the
counterexample, derived by applying the theorem. -/
theorem jwks_fetch_failure_handling_witness :
    fetch_jwks ⟨some (Jwks.mk [JwksKey.mk "k1" (some "cert1")]), 0⟩ 7200
        (.error ()) = .error () ∧
    validate_token ⟨true, true, "RS256", some "k1", false, true, false, true, true⟩
        ⟨some (Jwks.mk [JwksKey.mk "k1" (some "cert1")]), 0⟩ 7200 (.error ()) =
      .internalError "Internal server error during token validation" :=
  ⟨((jwks_fetch_failure_handling
      ⟨some (Jwks.mk [JwksKey.mk "k1" (some "cert1")]), 0⟩ 7200
      ⟨true, true, "RS256", some "k1", false, true, false, true, true⟩).1
      (Or.inr (by decide))).1,
   ((jwks_fetch_failure_handling
      ⟨some (Jwks.mk [JwksKey.mk "k1" (some "cert1")]), 0⟩ 7200
      ⟨true, true, "RS256", some "k1", false, true, false, true, true⟩).1
      (Or.inr (by decide))).2 rfl (by decide)⟩

/-- **C8 (code bug).** An expired RS256 token whose key id matches no
key in the (fresh) key set is answered with HTTP 500, not 401: the
`HTTPException(401, "signing key not found")` raised inside the `try`
block is itself caught by the final `except Exception` handler and
rewrapped as a 500 internal error.  By contrast an expired token on the
HS256 path, and an expired RS256 token whose signing key *is* found,
get the claimed 401. -/
theorem expired_token_unknown_kid_gives_500 :
    validate_token ⟨true, true, "RS256", some "k1", false, true, true, true, true⟩
        ⟨some (Jwks.mk []), 0⟩ 0 (.ok (Jwks.mk [])) =
      .internalError "Internal server error during token validation" ∧
    validate_token ⟨true, true, "HS256", none, true, false, true, true, true⟩
        ⟨none, 0⟩ 0 (.error ()) = .unauthorized "Invalid token" ∧
    validate_token ⟨true, true, "RS256", some "k1", false, true, true, true, true⟩
        ⟨some (Jwks.mk [JwksKey.mk "k1" (some "cert1")]), 0⟩ 0
        (.ok (Jwks.mk [])) = .unauthorized "Invalid token" := by
  exact ⟨by decide, by decide, by decide⟩

/-- Helper: looking up the key targeted by a keyed in-place replacement. -/
theorem lookup_map_replace (l : List (String × ModelEntry)) (m : String)
    (k : String) :
    List.lookup m (l.map (fun p => if p.1 = m then (p.1, set_api_key p.2 k) else p)) =
      (List.lookup m l).map (fun e => set_api_key e k) := by
  induction l with
  | nil => simp
  | cons hd tl ih =>
    obtain ⟨k', v⟩ := hd
    by_cases hk : k' = m
    · subst hk
      rw [List.map_cons, if_pos rfl]
      simp [List.lookup]
    · have hbeq : (m == k') = false := by
        rw [beq_eq_false_iff_ne]
        exact Ne.symm hk
      rw [List.map_cons, if_neg hk]
      simp [List.lookup, hbeq, ih]

/-- Helper: after the endpoint's config mutation, the model's entry is
the original entry with its `api_key` overwritten. -/
theorem get_model_config_inject (cfg : GatewayConfig) (m : String) (k : String)
    (e : ModelEntry) (h : get_model_config cfg m = some e) :
    get_model_config (inject_api_key cfg m k) m =
      some { e with api_key := some k } := by
  unfold get_model_config at h ⊢
  unfold inject_api_key
  rw [h]
  simp only []
  rw [lookup_map_replace, h]
  rfl

/-- Helper: the config mutation leaves the access-control table alone. -/
theorem inject_access_control (cfg : GatewayConfig) (m : String) (k : String) :
    (inject_api_key cfg m k).access_control = cfg.access_control := by
  unfold inject_api_key
  cases List.lookup m cfg.models <;> rfl

/-- **C9.** The upstream credential is resolved with the priority:
caller-supplied per-request header first, then the gateway's
process-level credential, then the model's statically configured
credential; and on a successful pipeline run the credential header that
`route_request` injects into the outbound request is built from exactly
the resolved (highest-priority present) value, using the model's
configured header name and prefix. -/
theorem credential_resolution_priority (cfg : GatewayConfig) (store : Store)
    (ctx : AuthContext) (modelName : String) (headerKey envKey : Option String)
    (now : Int) (e : ModelEntry) (u : String)
    (hentry : get_model_config cfg modelName = some e)
    (hend : truthy e.endpoint = some u)
    (hacc : check_access cfg.access_control ctx modelName = true)
    (hquota : (store.count (rateLimitKey modelName ctx.user_id) : Int) <
      get_rate_limits cfg modelName ctx.groups.head?) :
    (∀ h, truthy headerKey = some h →
      truthy (resolve_effective_api_key headerKey envKey e.api_key) = some h) ∧
    (truthy headerKey = none → ∀ h2, truthy envKey = some h2 →
      truthy (resolve_effective_api_key headerKey envKey e.api_key) = some h2) ∧
    (truthy headerKey = none → truthy envKey = none →
      truthy (resolve_effective_api_key headerKey envKey e.api_key) =
        truthy e.api_key) ∧
    (chat_completions cfg true now store ctx modelName headerKey envKey).1 =
      .ok ((truthy (resolve_effective_api_key headerKey envKey e.api_key)).map
        (fun k => (e.auth_header.getD "Authorization",
          build_auth_header_value (e.auth_prefix.getD "") k))) := by
  have hpass := check_rate_limit_pass now store ctx modelName
    (get_rate_limits cfg modelName ctx.groups.head?) 60 hquota
  refine ⟨?_, ?_, ?_, ?_⟩
  · intro h hh
    unfold resolve_effective_api_key
    rw [pyOr_of_truthy_some hh]
    exact truthy_of_nonempty (truthy_eq_some hh)
  · intro hh h2 he
    unfold resolve_effective_api_key
    rw [pyOr_of_truthy_none hh, pyOr_of_truthy_some he]
    exact truthy_of_nonempty (truthy_eq_some he)
  · intro hh he
    unfold resolve_effective_api_key
    rw [pyOr_of_truthy_none hh, pyOr_of_truthy_none he]
  · have hcfgkey : (get_model_config cfg modelName).bind (fun e => e.api_key) =
        e.api_key := by
      rw [hentry]
      rfl
    cases hEff : truthy (resolve_effective_api_key headerKey envKey e.api_key) with
    | some k =>
      have hk := truthy_eq_some hEff
      have hcfg2 := get_model_config_inject cfg modelName k e hentry
      have hacc2 : check_access (inject_api_key cfg modelName k).access_control
          ctx modelName = true := by
        rw [inject_access_control]
        exact hacc
      have hroute : route_request (inject_api_key cfg modelName k) ctx modelName =
          .forwarded (some (e.auth_header.getD "Authorization",
            build_auth_header_value (e.auth_prefix.getD "") k)) := by
        simp [route_request, hcfg2, hacc2, hend, truthy_of_nonempty hk]
      simp [chat_completions, hacc, hpass, hcfgkey, hEff, hroute]
    | none =>
      have hapi : truthy e.api_key = none := by
        have h2 := truthy_pyOr_eq_none.mp
          (show truthy (pyOr headerKey (pyOr envKey e.api_key)) = none from hEff)
        exact (truthy_pyOr_eq_none.mp h2.2).2
      have hroute : route_request cfg ctx modelName = .forwarded none := by
        simp [route_request, hentry, hacc, hend, hapi]
      simp [chat_completions, hacc, hpass, hcfgkey, hEff, hroute]

/-- Witness for C9: a model configured with endpoint, credential `"ck"`,
header `X-Auth` and prefix `Bearer`; the caller supplies `"hk"` and the
process environment `"ek"` — the caller-supplied key wins and is the one
placed in the outbound header. -/
theorem credential_resolution_priority_witness :
    truthy (resolve_effective_api_key (some "hk") (some "ek") (some "ck")) =
      some "hk" ∧
    (chat_completions
        ⟨[("gpt-4", ⟨some "http://up", some "ck", some "X-Auth",
            some "Bearer", none⟩)], [], ⟨[], none⟩⟩
        true 0 (Store.mk []) ⟨"u1", [], [], []⟩ "gpt-4"
        (some "hk") (some "ek")).1 =
      .ok ((truthy (resolve_effective_api_key (some "hk") (some "ek")
          (some "ck"))).map
        (fun k => ("X-Auth", build_auth_header_value "Bearer" k))) :=
  ⟨(credential_resolution_priority
      ⟨[("gpt-4", ⟨some "http://up", some "ck", some "X-Auth",
          some "Bearer", none⟩)], [], ⟨[], none⟩⟩
      (Store.mk []) ⟨"u1", [], [], []⟩ "gpt-4" (some "hk") (some "ek") 0
      ⟨some "http://up", some "ck", some "X-Auth", some "Bearer", none⟩
      "http://up" rfl (by decide) (by decide) (by decide)).1 "hk" (by decide),
   (credential_resolution_priority
      ⟨[("gpt-4", ⟨some "http://up", some "ck", some "X-Auth",
          some "Bearer", none⟩)], [], ⟨[], none⟩⟩
      (Store.mk []) ⟨"u1", [], [], []⟩ "gpt-4" (some "hk") (some "ek") 0
      ⟨some "http://up", some "ck", some "X-Auth", some "Bearer", none⟩
      "http://up" rfl (by decide) (by decide) (by decide)).2.2.2⟩

end Gateway
